import Mathlib

set_option maxHeartbeats 1000000

/-!
Verification of the mycli streaming completion pipeline.

This file gives a shallow embedding of the core of the repository:
the OpenAI completion client (retry loop, request payload construction,
server-sent-event chunk decoding), the Agent chat orchestration, and the
REPL session loop with its command table, together with theorems about the
properties the specification states for them.

External collaborators (the HTTP transport, Python's json module, the
database engine, the clock) are modelled as oracles: a function standing
for json.loads, a function from attempt index to provider outcome, and an
event list standing for the user's input together with the provider
outcome of each chat turn.
-/

/-- JSON values as returned by Python's json module: the payload of one
streaming event after json.loads. -/
inductive Json where
  | null
  | bool (b : Bool)
  | num (n : Int)
  | str (s : String)
  | arr (elems : List Json)
  | obj (fields : List (String × Json))

/-- The Python exceptions that can arise while a parsed streaming record is
taken apart.  The decoder's except clause catches jsonDecodeError, keyError
and indexError; a typeError is not caught. -/
inductive PyExc where
  | jsonDecodeError
  | keyError
  | indexError
  | typeError
  deriving DecidableEq

/-- Python subscript with a string key, as in data["choices"] and
delta["content"]: dict lookup raising KeyError when the key is missing, and
TypeError when the value subscripted is not a dict. -/
def Json.getKey : Json → String → Except PyExc Json
  | .obj fields, k =>
    match fields.lookup k with
    | some v => .ok v
    | none => .error .keyError
  | _, _ => .error .typeError

/-- Python subscript with an integer index, as in choices[0]: list indexing
raising IndexError out of range; on a dict an integer key is absent from the
string-keyed records modelled here, so KeyError; a string yields its
one-character substring; other values raise TypeError. -/
def Json.getIdx : Json → Nat → Except PyExc Json
  | .arr elems, i =>
    match elems[i]? with
    | some v => .ok v
    | none => .error .indexError
  | .obj _, _ => .error .keyError
  | .str s, i =>
    match s.data[i]? with
    | some c => .ok (.str (String.mk [c]))
    | none => .error .indexError
  | _, _ => .error .typeError

/-- Whether the character sequence needle occurs contiguously at the head of
hay. -/
def matchesAt : List Char → List Char → Bool
  | [], _ => true
  | _ :: _, [] => false
  | a :: as, b :: bs => a == b && matchesAt as bs

/-- Whether the character sequence needle occurs contiguously anywhere in
hay. -/
def containsSeq (needle : List Char) : List Char → Bool
  | [] => needle.isEmpty
  | b :: bs => matchesAt needle (b :: bs) || containsSeq needle bs

/-- Python str.startswith, modelled structurally on the character list. -/
def pyStartsWith (s p : String) : Bool := matchesAt p.data s.data

/-- Python slicing s[n:], modelled structurally on the character list. -/
def pyDrop (s : String) (n : Nat) : String := String.mk (s.data.drop n)

/-- Python membership test, as in the check on the delta record: key test on
a dict, element test on a list, substring test on a string, TypeError on
anything else. -/
def Json.hasMember : Json → String → Except PyExc Bool
  | .obj fields, k => .ok (fields.any (fun p => p.1 == k))
  | .arr elems, k =>
    .ok (elems.any (fun v => match v with | .str s => s == k | _ => false))
  | .str s, k => .ok (containsSeq k.data s.data)
  | _, _ => .error .typeError

/-- The field extraction complete_stream performs on one parsed streaming
record: data["choices"][0]["delta"], then the membership test for "content",
then delta["content"] when present. -/
def extractDelta (data : Json) : Except PyExc (Option Json) :=
  match data.getKey "choices" with
  | .error e => .error e
  | .ok choices =>
    match choices.getIdx 0 with
    | .error e => .error e
    | .ok first =>
      match first.getKey "delta" with
      | .error e => .error e
      | .ok delta =>
        match delta.hasMember "content" with
        | .error e => .error e
        | .ok present =>
          if present then
            match delta.getKey "content" with
            | .error e => .error e
            | .ok c => .ok (some c)
          else .ok none

/-- What the body of complete_stream's line loop does with one line. -/
inductive DecodeStep where
  | skip
  | chunk (c : Json)
  | warn (e : PyExc)
  | raiseExc (e : PyExc)

/-- Processing of one raw line of the streaming body.  loads stands for
json.loads applied to the text after the event prefix, returning none on
JSONDecodeError.  A blank line and the literal sentinel are skipped; a line
without the event prefix is skipped silently; a caught exception during
extraction logs a warning and the loop continues; a TypeError is not caught
by the except clause and propagates. -/
def decodeStreamLine (loads : String → Option Json) (line : String) : DecodeStep :=
  if line = "" then .skip
  else if line = "data: [DONE]" then .skip
  else if pyStartsWith line "data: " then
    match loads (pyDrop line 6) with
    | none => .warn .jsonDecodeError
    | some data =>
      match extractDelta data with
      | .ok (some c) => .chunk c
      | .ok none => .skip
      | .error .jsonDecodeError => .warn .jsonDecodeError
      | .error .keyError => .warn .keyError
      | .error .indexError => .warn .indexError
      | .error .typeError => .raiseExc .typeError
  else .skip

/-- The outcome of decoding a whole streaming body: the content chunks
yielded in order, the number of warnings logged, and the uncaught exception
that aborted the iteration, if any. -/
structure StreamResult where
  chunks : List Json
  warnings : Nat
  raised : Option PyExc

/-- The decoding loop of OpenAIService.complete_stream over the lines of
the response body.  An uncaught exception ends the iteration at once. -/
def complete_stream (loads : String → Option Json) : List String → StreamResult
  | [] => ⟨[], 0, none⟩
  | line :: rest =>
    match decodeStreamLine loads line with
    | .skip => complete_stream loads rest
    | .chunk c =>
      let r := complete_stream loads rest
      ⟨c :: r.chunks, r.warnings, r.raised⟩
    | .warn _ =>
      let r := complete_stream loads rest
      ⟨r.chunks, r.warnings + 1, r.raised⟩
    | .raiseExc e => ⟨[], 0, some e⟩

/-- A malformed data event in the sense of the spec: the event prefix is
present and the line is not the sentinel, but the payload fails JSON
parsing, or the parsed record is an object lacking the choices field, or
the first element of its choices list is an object lacking the delta
field. -/
def MalformedDataLine (loads : String → Option Json) (line : String) : Prop :=
  line ≠ "" ∧ line ≠ "data: [DONE]" ∧ pyStartsWith line "data: " = true ∧
  (loads (pyDrop line 6) = none ∨
   (∃ fields, loads (pyDrop line 6) = some (.obj fields) ∧
      fields.lookup "choices" = none) ∨
   (∃ fields rest dfields, loads (pyDrop line 6) = some (.obj fields) ∧
      fields.lookup "choices" = some (.arr (Json.obj dfields :: rest)) ∧
      dfields.lookup "delta" = none))

theorem malformed_line_warns (loads : String → Option Json) (line : String)
    (h : MalformedDataLine loads line) :
    ∃ e, decodeStreamLine loads line = DecodeStep.warn e := by
  obtain ⟨hne, hnd, hpre, hcase⟩ := h
  unfold decodeStreamLine
  rw [if_neg hne, if_neg hnd, if_pos hpre]
  rcases hcase with hnone | ⟨fields, hload, hlook⟩ | ⟨fields, rest, dfields, hload, hlook, hdel⟩
  · rw [hnone]
    exact ⟨.jsonDecodeError, rfl⟩
  · rw [hload]
    refine ⟨.keyError, ?_⟩
    simp only [extractDelta, Json.getKey, hlook]
  · rw [hload]
    refine ⟨.keyError, ?_⟩
    simp only [extractDelta, Json.getKey, Json.getIdx, hlook, hdel,
      List.getElem?_cons_zero]

/-- Claim C3: a streaming body holding one malformed data event between two
well-formed content events yields exactly the two well-formed content
deltas, in arrival order, logs one warning for the malformed event, and no
exception is raised on account of it. -/
theorem stream_decoder_skips_malformed (loads : String → Option Json)
    (l1 lbad l2 : String) (c1 c2 : Json)
    (h1 : decodeStreamLine loads l1 = .chunk c1)
    (hb : MalformedDataLine loads lbad)
    (h2 : decodeStreamLine loads l2 = .chunk c2) :
    complete_stream loads [l1, lbad, l2] =
      { chunks := [c1, c2], warnings := 1, raised := none } := by
  obtain ⟨e, hw⟩ := malformed_line_warns loads lbad hb
  simp [complete_stream, h1, hw, h2]

/-- A concrete well-formed first content event of the witness stream. -/
def goodJson1 : Json :=
  .obj [("choices", .arr [.obj [("delta", .obj [("content", .str "Hel")])]])]

/-- A concrete well-formed second content event of the witness stream. -/
def goodJson2 : Json :=
  .obj [("choices", .arr [.obj [("delta", .obj [("content", .str "lo!")])]])]

/-- A concrete malformed event: its first choice lacks the delta field. -/
def badJson : Json :=
  .obj [("choices", .arr [.obj [("index", .num 0)]])]

/-- The payload text of the first witness event. -/
def payload1 : String :=
  "\x7b\x22choices\x22:[\x7b\x22delta\x22:\x7b\x22content\x22:\x22Hel\x22\x7d\x7d]\x7d"

/-- The payload text of the second witness event. -/
def payload2 : String :=
  "\x7b\x22choices\x22:[\x7b\x22delta\x22:\x7b\x22content\x22:\x22lo!\x22\x7d\x7d]\x7d"

/-- The payload text of the malformed witness event. -/
def payloadBad : String :=
  "\x7b\x22choices\x22:[\x7b\x22index\x22:0\x7d]\x7d"

/-- A concrete stand-in for json.loads covering the three witness
payloads. -/
def loadsEx (s : String) : Option Json :=
  if s = payload1 then some goodJson1
  else if s = payloadBad then some badJson
  else if s = payload2 then some goodJson2
  else none

theorem stream_decoder_skips_malformed_witness :
    complete_stream loadsEx
      ["data: " ++ payload1, "data: " ++ payloadBad, "data: " ++ payload2] =
      { chunks := [.str "Hel", .str "lo!"], warnings := 1, raised := none } := by
  refine stream_decoder_skips_malformed loadsEx _ _ _ _ _ rfl ?_ rfl
  refine ⟨by decide, by decide, by decide, Or.inr (Or.inr ?_)⟩
  refine ⟨[("choices", .arr [.obj [("index", .num 0)]])],
    [], [("index", .num 0)], ?_, rfl, rfl⟩
  rfl

/-- Claim C4 counterexample: the sentinel line is skipped with continue, not
treated as a terminator, so a well-formed content line arriving after the
sentinel still yields its chunk. -/
theorem chunks_after_done_cex :
    complete_stream loadsEx ["data: [DONE]", "data: " ++ payload2] =
      { chunks := [.str "lo!"], warnings := 0, raised := none } := by
  rfl

/-- Claim C4 amended: the sentinel line itself yields no content chunk, and
decoding simply continues with the remaining lines, so the chunk sequence
ends only when the line sequence ends (the connection closes); lines after
the sentinel, if any, are still decoded. -/
theorem done_line_skipped (loads : String → Option Json) (rest : List String) :
    complete_stream loads ("data: [DONE]" :: rest) = complete_stream loads rest := by
  simp [complete_stream, decodeStreamLine]

/-- A chat message as in the Message dataclass of the base service module. -/
structure Message where
  role : String
  content : String
  metadata : Option Json

/-- The CompletionResponse dataclass: content and role of the first choice,
the finish reason and the usage record when present. -/
structure CompletionResponse where
  content : String
  role : String
  finish_reason : Option String
  usage : Option Json

/-- The outcome of one provider request as seen by the retry loop: a
parsed successful response, an HTTPStatusError raised by
raise_for_status on a non-2xx response, or any other exception
(transport failure, timeout), which the second except clause treats the
same way. -/
inductive AttemptOutcome where
  | success (r : CompletionResponse)
  | httpStatusError (code : Nat)
  | transportError (msg : String)

/-- The error complete can re-raise: the last HTTP error, the last
transport error, or the RuntimeError after the loop (reachable only when
max_retries is 0 and the loop body never runs). -/
inductive CompleteError where
  | httpStatus (code : Nat)
  | transport (msg : String)
  | exhausted
  deriving DecidableEq

/-- Whether an attempt outcome is one of the two retried failure kinds. -/
def AttemptOutcome.isFailure : AttemptOutcome → Bool
  | .success _ => false
  | .httpStatusError _ => true
  | .transportError _ => true

/-- The error a failing attempt outcome re-raises. -/
def AttemptOutcome.toError : AttemptOutcome → CompleteError
  | .success _ => .exhausted
  | .httpStatusError c => .httpStatus c
  | .transportError m => .transport m

/-- The retry loop of OpenAIService.complete.  idx counts the requests
already issued; the fuel is the number of loop iterations remaining, so the
guard on the last iteration (attempt == max_retries - 1) is fuel 1.  The
pair holds the outcome and the total number of requests issued. -/
def completeAux (attempts : Nat → AttemptOutcome) :
    Nat → Nat → Except CompleteError CompletionResponse × Nat
  | idx, 0 => (.error .exhausted, idx)
  | idx, fuel + 1 =>
    match attempts idx with
    | .success r => (.ok r, idx + 1)
    | .httpStatusError c =>
      if fuel = 0 then (.error (.httpStatus c), idx + 1)
      else completeAux attempts (idx + 1) fuel
    | .transportError m =>
      if fuel = 0 then (.error (.transport m), idx + 1)
      else completeAux attempts (idx + 1) fuel

/-- The OpenAIService instance after __init__: the resolved credential,
endpoint and limits. -/
structure OpenAIService where
  api_key : String
  base_url : String
  timeout : Nat
  max_retries : Nat
  default_model : String

/-- OpenAIService.complete with the provider interaction abstracted as a
map from request index to outcome. -/
def OpenAIService.complete (svc : OpenAIService)
    (attempts : Nat → AttemptOutcome) :
    Except CompleteError CompletionResponse × Nat :=
  completeAux attempts 0 svc.max_retries

theorem completeAux_first_success (attempts : Nat → AttemptOutcome) :
    ∀ (k idx fuel : Nat) (r : CompletionResponse), k < fuel →
      (∀ j, j < k → (attempts (idx + j)).isFailure = true) →
      attempts (idx + k) = .success r →
      completeAux attempts idx fuel = (.ok r, idx + k + 1) := by
  intro k
  induction k with
  | zero =>
    intro idx fuel r hk _ hs
    match fuel, hk with
    | fuel + 1, _ =>
      rw [Nat.add_zero] at hs
      simp [completeAux, hs]
  | succ k ih =>
    intro idx fuel r hk hf hs
    match fuel, hk with
    | fuel + 1, hk =>
      have hfuel : fuel ≠ 0 := by omega
      have h0 : (attempts idx).isFailure = true := by
        have := hf 0 (Nat.succ_pos k)
        simpa using this
      have hrec : completeAux attempts (idx + 1) fuel = (.ok r, idx + 1 + k + 1) := by
        refine ih (idx + 1) fuel r (by omega) ?_ ?_
        · intro j hj
          have := hf (j + 1) (by omega)
          have heq : idx + (j + 1) = idx + 1 + j := by omega
          rwa [heq] at this
        · have heq : idx + (k + 1) = idx + 1 + k := by omega
          rwa [heq] at hs
      have hgoal : idx + 1 + k + 1 = idx + (k + 1) + 1 := by omega
      rw [hgoal] at hrec
      cases hatt : attempts idx with
      | success r' => rw [hatt] at h0; simp [AttemptOutcome.isFailure] at h0
      | httpStatusError c => simp [completeAux, hatt, hfuel, hrec]
      | transportError m => simp [completeAux, hatt, hfuel, hrec]

theorem completeAux_step (attempts : Nat → AttemptOutcome) (idx fuel : Nat)
    (h0 : (attempts idx).isFailure = true) :
    completeAux attempts idx (fuel + 2) = completeAux attempts (idx + 1) (fuel + 1) := by
  cases hatt : attempts idx with
  | success r => rw [hatt] at h0; simp [AttemptOutcome.isFailure] at h0
  | httpStatusError c => simp [completeAux, hatt]
  | transportError m => simp [completeAux, hatt]

theorem completeAux_all_fail (attempts : Nat → AttemptOutcome) :
    ∀ (fuel idx : Nat), 1 ≤ fuel →
      (∀ j, j < fuel → (attempts (idx + j)).isFailure = true) →
      completeAux attempts idx fuel =
        (.error (attempts (idx + fuel - 1)).toError, idx + fuel) := by
  intro fuel
  induction fuel with
  | zero => intro idx h; omega
  | succ fuel ih =>
    intro idx _ hf
    have h0 : (attempts idx).isFailure = true := by
      have := hf 0 (Nat.succ_pos fuel)
      simpa using this
    cases hfuel : fuel with
    | zero =>
      subst hfuel
      cases hatt : attempts idx with
      | success r => rw [hatt] at h0; simp [AttemptOutcome.isFailure] at h0
      | httpStatusError c =>
        simp [completeAux, hatt, AttemptOutcome.toError]
      | transportError m =>
        simp [completeAux, hatt, AttemptOutcome.toError]
    | succ fuel' =>
      subst hfuel
      have hrec := ih (idx + 1) (by omega) (by
        intro j hj
        have := hf (j + 1) (by omega)
        have heq : idx + (j + 1) = idx + 1 + j := by omega
        rwa [heq] at this)
      have he1 : idx + 1 + (fuel' + 1) - 1 = idx + (fuel' + 1 + 1) - 1 := by omega
      have he2 : idx + 1 + (fuel' + 1) = idx + (fuel' + 1 + 1) := by omega
      rw [he1, he2] at hrec
      calc completeAux attempts idx (fuel' + 1 + 1)
          = completeAux attempts (idx + 1) (fuel' + 1) :=
            completeAux_step attempts idx fuel' h0
        _ = (Except.error (attempts (idx + (fuel' + 1 + 1) - 1)).toError,
              idx + (fuel' + 1 + 1)) := hrec

/-- Claim C1: with max_retries n at least 1, complete makes at most n
provider attempts: when the attempts before the k-th all fail and the k-th
succeeds (k counted from 1, k at most n), it returns that attempt's parsed
response after exactly k requests; when every one of the n attempts fails,
it re-raises the last attempt's error after exactly n requests.  The retry
treats HTTP-status failures and transport failures alike. -/
theorem complete_retry_policy (svc : OpenAIService) (k : Nat)
    (attempts : Nat → AttemptOutcome) (r : CompletionResponse)
    (hn : 1 ≤ svc.max_retries) :
    (1 ≤ k → k ≤ svc.max_retries →
      (∀ j, j < k - 1 → (attempts j).isFailure = true) →
      attempts (k - 1) = .success r →
      svc.complete attempts = (.ok r, k))
    ∧ ((∀ j, j < svc.max_retries → (attempts j).isFailure = true) →
      svc.complete attempts =
        (.error (attempts (svc.max_retries - 1)).toError, svc.max_retries)) := by
  constructor
  · intro hk1 hkn hf hs
    have h := completeAux_first_success attempts (k - 1) 0 svc.max_retries r
      (by omega) (by simpa using hf) (by simpa using hs)
    have heq : 0 + (k - 1) + 1 = k := by omega
    rw [heq] at h
    exact h
  · intro hf
    have h := completeAux_all_fail attempts svc.max_retries 0 hn
      (by simpa using hf)
    simpa using h

/-- A provider mock that fails twice, once with a 500 response and once
with a transport error, then succeeds. -/
def mockFailTwice : Nat → AttemptOutcome := fun i =>
  match i with
  | 0 => .httpStatusError 500
  | 1 => .transportError "timeout"
  | _ => .success ⟨"hi there", "assistant", some "stop", none⟩

/-- A provider mock that always fails with a 429 response. -/
def mockAlwaysFail : Nat → AttemptOutcome := fun _ => .httpStatusError 429

/-- A concrete client with the default limits. -/
def svc3 : OpenAIService :=
  ⟨"sk-test", "https://api.openai.com/v1", 60, 3, "gpt-3.5-turbo"⟩

theorem complete_retry_policy_witness :
    svc3.complete mockFailTwice =
      (.ok ⟨"hi there", "assistant", some "stop", none⟩, 3)
    ∧ svc3.complete mockAlwaysFail = (.error (.httpStatus 429), 3) := by
  constructor
  · exact (complete_retry_policy svc3 3 mockFailTwice
      ⟨"hi there", "assistant", some "stop", none⟩ (by decide)).1
      (by decide) (by decide) (by decide) rfl
  · exact (complete_retry_policy svc3 1 mockAlwaysFail
      ⟨"", "assistant", none, none⟩ (by decide)).2 (by decide)

/-- The ai_service section of the configuration, with the documented
defaults for timeout and max_retries. -/
structure AIServiceConfig where
  default_model : String
  timeout : Nat
  max_retries : Nat
  openai_api_key : Option String
  openai_base_url : Option String

/-- Python's `x or y` on an optional string: None and the empty string are
falsy and select y. -/
def pyOrStr (x y : Option String) : Option String :=
  match x with
  | none => y
  | some s => if s = "" then y else some s

/-- Python's `x or y` on an integer: zero is falsy and selects y. -/
def pyOrNat (x y : Nat) : Nat :=
  if x = 0 then y else x

/-- OpenAIService.__init__: the credential falls back to the configuration
and a missing or empty key raises; base_url, timeout and max_retries fall
back through `or` to the configured values (and for base_url finally to the
public endpoint). -/
def OpenAIService.init (cfg : AIServiceConfig) (api_key base_url : Option String)
    (timeout max_retries : Nat) : Except String OpenAIService :=
  match pyOrStr api_key cfg.openai_api_key with
  | none => .error "OpenAI API key not configured"
  | some key =>
    if key = "" then .error "OpenAI API key not configured"
    else
      .ok
        { api_key := key
          base_url :=
            (pyOrStr (pyOrStr base_url cfg.openai_base_url)
              (some "https://api.openai.com/v1")).getD ""
          timeout := pyOrNat timeout cfg.timeout
          max_retries := pyOrNat max_retries cfg.max_retries
          default_model := cfg.default_model }

/-- The request payload built by complete and complete_stream: model,
serialized messages, temperature, the streaming flag (absent for complete,
true for complete_stream) and max_tokens, which is added only when
truthy. -/
structure RequestPayload where
  model : String
  messages : List (String × String)
  temperature : Rat
  stream : Option Bool
  max_tokens : Option Nat

/-- Payload construction shared by complete and complete_stream: the
`if max_tokens:` guard omits the field for None and for 0 alike. -/
def buildPayload (model : String) (messages : List Message) (temperature : Rat)
    (max_tokens : Option Nat) (stream : Option Bool) : RequestPayload :=
  { model := model
    messages := messages.map (fun m => (m.role, m.content))
    temperature := temperature
    stream := stream
    max_tokens :=
      match max_tokens with
      | none => none
      | some n => if n = 0 then none else some n }

/-- Claim C10: constructing the client with max_retries 0 or timeout 0
silently substitutes the configured values, so as long as the configured
retry count is at least 1 no reachable client makes zero attempts; and a
zero max_tokens argument leaves the max_tokens field out of the request
payload of complete and complete_stream. -/
theorem zero_params_use_defaults (cfg : AIServiceConfig)
    (key burl : Option String) (model : String) (msgs : List Message)
    (t : Rat) (sf : Option Bool) :
    (∀ svc, OpenAIService.init cfg key burl 0 0 = .ok svc →
      svc.timeout = cfg.timeout ∧ svc.max_retries = cfg.max_retries)
    ∧ (buildPayload model msgs t (some 0) sf).max_tokens = none
    ∧ (∀ tArg mrArg svc, 1 ≤ cfg.max_retries →
        OpenAIService.init cfg key burl tArg mrArg = .ok svc →
        1 ≤ svc.max_retries) := by
  refine ⟨?_, rfl, ?_⟩
  · intro svc hinit
    cases hkey : pyOrStr key cfg.openai_api_key with
    | none => simp [OpenAIService.init, hkey] at hinit
    | some k =>
      by_cases hk : k = ""
      · subst hk; simp [OpenAIService.init, hkey] at hinit
      · simp [OpenAIService.init, hkey, hk] at hinit
        rw [← hinit]
        exact ⟨rfl, rfl⟩
  · intro tArg mrArg svc hcfg hinit
    cases hkey : pyOrStr key cfg.openai_api_key with
    | none => simp [OpenAIService.init, hkey] at hinit
    | some k =>
      by_cases hk : k = ""
      · subst hk; simp [OpenAIService.init, hkey] at hinit
      · simp [OpenAIService.init, hkey, hk] at hinit
        rw [← hinit]
        show 1 ≤ pyOrNat mrArg cfg.max_retries
        unfold pyOrNat
        by_cases hmr : mrArg = 0
        · rw [if_pos hmr]; exact hcfg
        · rw [if_neg hmr]; omega

/-- The configuration defaults of the AIServiceConfig settings class, with
a credential present. -/
def cfgDefault : AIServiceConfig :=
  ⟨"gpt-3.5-turbo", 60, 3, some "sk-test", none⟩

theorem zero_params_use_defaults_witness :
    (∃ svc, OpenAIService.init cfgDefault none none 0 0 = .ok svc
      ∧ svc.timeout = 60 ∧ svc.max_retries = 3 ∧ 1 ≤ svc.max_retries)
    ∧ (buildPayload "gpt-3.5-turbo" [] (7 / 10 : Rat) (some 0) none).max_tokens
        = none := by
  have h := zero_params_use_defaults cfgDefault none none "gpt-3.5-turbo" []
    (7 / 10 : Rat) none
  refine ⟨⟨⟨"sk-test", "https://api.openai.com/v1", 60, 3, "gpt-3.5-turbo"⟩,
    rfl, ?_, ?_, ?_⟩, h.2.1⟩
  · exact (h.1 _ rfl).1
  · exact (h.1 _ rfl).2
  · exact h.2.2 0 0 _ (by decide) rfl

/-- The default system prompts keyed by agent type. -/
def DEFAULT_SYSTEM_PROMPTS : List (String × String) :=
  [("general", "You are a helpful AI assistant."),
   ("developer", "You are an expert software developer assistant, helping with coding, debugging, and software design."),
   ("devops", "You are a DevOps expert, assisting with automation, deployment, monitoring, and system administration."),
   ("data_analyst", "You are a data analysis expert, helping with data processing, analysis, and visualization.")]

/-- The Agent record, restricted to the fields the chat path reads: the
identity fields and the config entries system_prompt, model, temperature
and max_tokens (each None when the key is absent from the config dict). -/
structure Agent where
  id : String
  name : String
  type : String
  system_prompt : Option String
  model : Option String
  temperature : Option Rat
  max_tokens : Option Nat

/-- Agent.get_system_prompt: the configured override when the key is
present, else the default for the agent type, else the general default. -/
def Agent.get_system_prompt (a : Agent) : String :=
  match a.system_prompt with
  | some p => p
  | none =>
    match DEFAULT_SYSTEM_PROMPTS.lookup a.type with
    | some p => p
    | none => "You are a helpful AI assistant."

/-- The completion service as the Agent sees it, with the provider
interaction abstracted: the non-streaming call returns a parsed response
and the streaming call returns the chunk list the stream yields, both as
functions of the messages and generation parameters sent. -/
structure AIServiceModel where
  complete : List Message → Option String → Rat → Option Nat → CompletionResponse
  complete_stream : List Message → Option String → Rat → Option Nat → List String

/-- What one Agent.chat call did: the message list passed to the
completion client, the text returned, and the chunks forwarded to the
output sink, in order. -/
structure ChatResult where
  sent : List Message
  text : String
  printed : List String

/-- Agent.chat: builds system + history + user, reads the generation
parameters from the config (temperature defaulting to 0.7), and either
accumulates and echoes streamed chunks or returns the non-streaming
response's content. -/
def Agent.chat (a : Agent) (svc : AIServiceModel) (message : String)
    (history : List Message) (stream : Bool) : ChatResult :=
  let messages :=
    Message.mk "system" a.get_system_prompt none ::
      (history ++ [Message.mk "user" message none])
  let model := a.model
  let temperature := a.temperature.getD (7 / 10 : Rat)
  let max_tokens := a.max_tokens
  if stream then
    let chunks := svc.complete_stream messages model temperature max_tokens
    { sent := messages
      text := chunks.foldl (fun acc c => acc ++ c) ""
      printed := chunks }
  else
    let response := svc.complete messages model temperature max_tokens
    { sent := messages, text := response.content, printed := [] }

/-- Claim C6: in non-streaming mode Agent.chat returns exactly the content
field of the completion client's response, unmodified. -/
theorem chat_nonstream_content (a : Agent) (svc : AIServiceModel)
    (message : String) (history : List Message) :
    (a.chat svc message history false).text =
      (svc.complete ((a.chat svc message history false).sent) a.model
        (a.temperature.getD (7 / 10 : Rat)) a.max_tokens).content := rfl

/-- Claim C5: in streaming mode Agent.chat forwards to the output sink
exactly the chunk list the provider produced, in arrival order, and returns
their concatenation; when the non-streaming response is equivalent (its
content equals that concatenation), the streaming and non-streaming return
values coincide. -/
theorem chat_stream_equiv (a : Agent) (svc : AIServiceModel)
    (message : String) (history : List Message)
    (h : (a.chat svc message history false).text =
      ((a.chat svc message history true).printed).foldl (fun acc c => acc ++ c) "") :
    (a.chat svc message history true).printed =
      svc.complete_stream ((a.chat svc message history true).sent) a.model
        (a.temperature.getD (7 / 10 : Rat)) a.max_tokens
    ∧ (a.chat svc message history true).text =
      ((a.chat svc message history true).printed).foldl (fun acc c => acc ++ c) ""
    ∧ (a.chat svc message history true).text =
      (a.chat svc message history false).text := by
  exact ⟨rfl, rfl, h.symm⟩

/-- A concrete general-type agent with an empty config dict. -/
def agentW : Agent := ⟨"id-1", "default", "general", none, none, none, none⟩

/-- A mocked provider whose streamed chunks concatenate to its
non-streaming content. -/
def svcMockEquiv : AIServiceModel :=
  ⟨fun _ _ _ _ => ⟨"hi there", "assistant", some "stop", none⟩,
   fun _ _ _ _ => ["hi ", "there"]⟩

theorem chat_stream_equiv_witness :
    (agentW.chat svcMockEquiv "hello" [] true).text = "hi there"
    ∧ (agentW.chat svcMockEquiv "hello" [] true).printed = ["hi ", "there"]
    ∧ (agentW.chat svcMockEquiv "hello" [] true).text =
      (agentW.chat svcMockEquiv "hello" [] false).text := by
  have h := chat_stream_equiv agentW svcMockEquiv "hello" [] rfl
  exact ⟨h.2.2.trans rfl, h.1, h.2.2⟩

/-- Claim C7: the message list Agent.chat passes to the completion client
is exactly one system message holding the resolved system prompt, then the
history, then the new user message; when the history holds no system
message the list begins with exactly one system message and ends with the
newest user message. -/
theorem chat_transcript_invariant (a : Agent) (svc : AIServiceModel)
    (message : String) (history : List Message) (stream : Bool)
    (hh : ∀ m ∈ history, m.role ≠ "system") :
    (a.chat svc message history stream).sent =
      Message.mk "system" a.get_system_prompt none ::
        (history ++ [Message.mk "user" message none])
    ∧ ((a.chat svc message history stream).sent).countP
        (fun m => m.role == "system") = 1
    ∧ ((a.chat svc message history stream).sent).getLast? =
      some (Message.mk "user" message none) := by
  have hsent : (a.chat svc message history stream).sent =
      Message.mk "system" a.get_system_prompt none ::
        (history ++ [Message.mk "user" message none]) := by
    cases stream <;> rfl
  refine ⟨hsent, ?_, ?_⟩
  · rw [hsent]
    rw [List.countP_cons, List.countP_append, List.countP_cons]
    have hz : history.countP (fun m => m.role == "system") = 0 := by
      rw [List.countP_eq_zero]
      intro m hm
      simpa using hh m hm
    simp [hz]
  · rw [hsent]
    rw [show Message.mk "system" a.get_system_prompt none ::
        (history ++ [Message.mk "user" message none]) =
        (Message.mk "system" a.get_system_prompt none :: history) ++
          [Message.mk "user" message none] from rfl]
    exact List.getLast?_concat _

/-- A concrete two-turn history with no system message. -/
def histW : List Message :=
  [Message.mk "user" "hello" none, Message.mk "assistant" "hi there" none]

theorem chat_transcript_invariant_witness :
    (agentW.chat svcMockEquiv "next question" histW false).sent =
      Message.mk "system" "You are a helpful AI assistant." none ::
        (histW ++ [Message.mk "user" "next question" none])
    ∧ ((agentW.chat svcMockEquiv "next question" histW false).sent).countP
        (fun m => m.role == "system") = 1
    ∧ ((agentW.chat svcMockEquiv "next question" histW false).sent).getLast? =
      some (Message.mk "user" "next question" none) := by
  have h := chat_transcript_invariant agentW svcMockEquiv "next question" histW
    false (by
      intro m hm
      simp [histW] at hm
      rcases hm with h1 | h2
      · rw [h1]; decide
      · rw [h2]; decide)
  exact ⟨h.1.trans rfl, h.2.1, h.2.2⟩

/-- Python str.lower, modelled structurally on the character list. -/
def pyLower (s : String) : String := String.mk (s.data.map Char.toLower)

/-- Python str.strip, modelled structurally: whitespace removed from both
ends. -/
def pyStrip (s : String) : String :=
  String.mk
    (((s.data.dropWhile Char.isWhitespace).reverse.dropWhile
        Char.isWhitespace).reverse)

/-- One pass of Python str.split with no separator: the current word being
accumulated (reversed) and the characters still to scan. -/
def wordsAux : List Char → List Char → List String
  | cur, [] => if cur.isEmpty then [] else [String.mk cur.reverse]
  | cur, c :: cs =>
    if c.isWhitespace then
      if cur.isEmpty then wordsAux [] cs
      else String.mk cur.reverse :: wordsAux [] cs
    else wordsAux (c :: cur) cs

/-- Python str.split with no separator: whitespace-delimited words, empty
strings never included. -/
def pySplit (s : String) : List String := wordsAux [] s.data

/-- A session record as save_session writes it: the session identifier, the
owning agent's identifier and the message list.  The title and the
timestamps, which come from the clock, are outside the model. -/
structure SessionRecord where
  id : String
  agent_id : String
  messages : List Message

/-- The mutable state of a REPLSession: the active agent, the session
identifier and the in-memory transcript. -/
structure ReplState where
  agent : Agent
  session_id : String
  messages : List Message

/-- REPLSession.save_session: with an empty transcript nothing is written;
otherwise one record holding the current transcript is stored. -/
def save_session (st : ReplState) : Option SessionRecord :=
  if st.messages.isEmpty then none
  else some ⟨st.session_id, st.agent.id, st.messages⟩

/-- How a command handler invocation returned: normally, or by raising
EOFError (the exit commands), which run's loop catches as a break. -/
inductive CmdResult where
  | normal
  | eofRaised
  deriving DecidableEq

/-- The full effect of one handle_command call: the state afterwards, how
it returned, the record it persisted if any, and whether it reported an
error to the user. -/
structure CmdEffect where
  state : ReplState
  result : CmdResult
  saved : Option SessionRecord
  errReported : Bool

/-- REPLSession.handle_command over the fixed command table.  agents is the
store the agent manager reads, freshId the uuid a switch would assign. -/
def handle_command (agents : List Agent) (autoSave : Bool) (freshId : String)
    (st : ReplState) (command : String) : CmdEffect :=
  let parts := pySplit command
  let cmd := pyLower (parts.headD "")
  if cmd = "/exit" ∨ cmd = "/quit" then ⟨st, .eofRaised, none, false⟩
  else if cmd = "/help" then ⟨st, .normal, none, false⟩
  else if cmd = "/clear" then ⟨{ st with messages := [] }, .normal, none, false⟩
  else if cmd = "/save" then ⟨st, .normal, save_session st, false⟩
  else if cmd = "/history" then ⟨st, .normal, none, false⟩
  else if cmd = "/agent" then
    match parts[1]? with
    | some newName =>
      match agents.find? (fun a => a.name == newName) with
      | some newAgent =>
        let saved :=
          if autoSave && !st.messages.isEmpty then save_session st else none
        ⟨⟨newAgent, freshId, []⟩, .normal, saved, false⟩
      | none => ⟨st, .normal, none, true⟩
    | none => ⟨st, .normal, none, false⟩
  else ⟨st, .normal, none, true⟩

/-- One iteration's input as run sees it: a line of input (with the oracle
outcome of the chat turn it triggers, if it is free text), an interrupt at
the prompt, or the end-of-input signal. -/
inductive RunEvent where
  | line (s : String) (chatOutcome : Except CompleteError String)
  | interrupt
  | eofSignal

/-- How one iteration of run's while loop ends: back at the prompt
(Reading), leaving the loop through the caught EOFError (break), or
through an exception the loop's except clauses do not catch. -/
inductive StepResult where
  | toReading (st : ReplState) (saved : Option SessionRecord) (errReported : Bool)
  | exitLoop (st : ReplState)
  | errorExit (st : ReplState) (e : CompleteError)

/-- Whether an iteration ended back at the prompt. -/
def StepResult.isReading : StepResult → Bool
  | .toReading _ _ _ => true
  | _ => false

/-- One iteration of REPLSession.run's while loop.  An empty stripped line
is skipped; a slash line goes to handle_command (whose EOFError becomes a
break); free text is appended to the transcript as a user message and sent
to Agent.chat, whose success is appended as an assistant message, while a
completion-client error matches neither except KeyboardInterrupt nor
except EOFError and therefore leaves the loop as an exception. -/
def replIterate (agents : List Agent) (autoSave : Bool) (freshId : String)
    (st : ReplState) (ev : RunEvent) : StepResult :=
  match ev with
  | .interrupt => .toReading st none false
  | .eofSignal => .exitLoop st
  | .line s chatOutcome =>
    let input := pyStrip s
    if input = "" then .toReading st none false
    else if pyStartsWith input "/" then
      let eff := handle_command agents autoSave freshId st input
      match eff.result with
      | .eofRaised => .exitLoop eff.state
      | .normal => .toReading eff.state eff.saved eff.errReported
    else
      let st1 : ReplState :=
        { st with messages := st.messages ++ [Message.mk "user" input none] }
      match chatOutcome with
      | .ok response =>
        .toReading
          { st1 with
              messages := st1.messages ++ [Message.mk "assistant" response none] }
          none false
      | .error e => .errorExit st1 e

/-- run's while loop over the whole event sequence: the exhausted event
list stands for the end of input (prompt_async raising EOFError).  Returns
the state when the loop is left and the exception propagating out of it,
if any. -/
def runLoop (agents : List Agent) (autoSave : Bool) (fresh : Nat → String) :
    Nat → ReplState → List RunEvent → ReplState × Option CompleteError
  | _, st, [] => (st, none)
  | k, st, ev :: evs =>
    match replIterate agents autoSave (fresh k) st ev with
    | .toReading st' _ _ => runLoop agents autoSave fresh (k + 1) st' evs
    | .exitLoop st' => (st', none)
    | .errorExit st' e => (st', some e)

/-- run's finally block: the automatic save on leaving the loop. -/
def onClose (autoSave : Bool) (st : ReplState) : Option SessionRecord :=
  if autoSave && !st.messages.isEmpty then save_session st else none

/-- The observable outcome of one whole REPLSession.run call. -/
structure RunResult where
  final : ReplState
  closeSave : Option SessionRecord
  propagated : Option CompleteError

/-- REPLSession.run: the loop followed by the finally block, which runs on
every way out of the loop, the propagating exception included. -/
def run (agents : List Agent) (autoSave : Bool) (fresh : Nat → String)
    (k : Nat) (st : ReplState) (events : List RunEvent) : RunResult :=
  let p := runLoop agents autoSave fresh k st events
  ⟨p.1, onClose autoSave p.1, p.2⟩

/-- What start_repl reports: the process exit code and the error printed,
if any.  An exception escaping asyncio.run is caught, reported to the user
and turned into exit code 1. -/
structure StartReplResult where
  exitCode : Nat
  reportedError : Option CompleteError

/-- start_repl: runs the session and maps a propagating exception to a
report and exit code 1. -/
def start_repl (agents : List Agent) (autoSave : Bool) (fresh : Nat → String)
    (st : ReplState) (events : List RunEvent) : StartReplResult :=
  match (run agents autoSave fresh 0 st events).propagated with
  | some e => ⟨1, some e⟩
  | none => ⟨0, none⟩

/-- Claim C8: the /agent command with a name matching no stored agent
returns normally (non-fatal) with an error report, and leaves the active
agent, the session identifier and the transcript all unchanged; nothing is
persisted. -/
theorem agent_unknown_unchanged (agents : List Agent) (autoSave : Bool)
    (freshId : String) (st : ReplState) (command newName : String)
    (hp : pySplit command = ["/agent", newName])
    (hn : agents.find? (fun a => a.name == newName) = none) :
    handle_command agents autoSave freshId st command =
      ⟨st, .normal, none, true⟩ := by
  simp only [handle_command, hp, List.headD_cons]
  rw [show pyLower "/agent" = "/agent" from rfl]
  rw [if_neg (by decide), if_neg (by decide), if_neg (by decide),
    if_neg (by decide), if_neg (by decide), if_pos (by decide)]
  simp only [List.getElem?_cons_succ, List.getElem?_cons_zero]
  rw [hn]

/-- A concrete session state in the middle of a conversation. -/
def stW : ReplState := ⟨agentW, "sid-1", histW⟩

theorem agent_unknown_unchanged_witness :
    handle_command [agentW] true "sid-2" stW "/agent ghost" =
      ⟨stW, .normal, none, true⟩ :=
  agent_unknown_unchanged [agentW] true "sid-2" stW "/agent ghost" "ghost"
    (by decide) rfl

/-- Claim C9: on every way out of run's loop (exit command, end of input,
or a propagating error) the finally block persists the transcript exactly
when auto-save is enabled and the transcript is non-empty, and the record
persisted holds the closing state's identifiers and messages. -/
theorem close_autosave_iff (agents : List Agent) (autoSave : Bool)
    (fresh : Nat → String) (k : Nat) (st : ReplState) (events : List RunEvent) :
    (run agents autoSave fresh k st events).closeSave =
      (if autoSave &&
          !(run agents autoSave fresh k st events).final.messages.isEmpty
       then some
          ⟨(run agents autoSave fresh k st events).final.session_id,
           (run agents autoSave fresh k st events).final.agent.id,
           (run agents autoSave fresh k st events).final.messages⟩
       else none)
    ∧ ((run agents autoSave fresh k st events).closeSave).isSome =
      (autoSave && !(run agents autoSave fresh k st events).final.messages.isEmpty) := by
  rcases hL : runLoop agents autoSave fresh k st events with ⟨stF, err⟩
  have hrun : run agents autoSave fresh k st events =
      ⟨stF, onClose autoSave stF, err⟩ := by
    simp [run, hL]
  rw [hrun]
  cases autoSave with
  | false => simp [onClose]
  | true =>
    cases hM : stF.messages with
    | nil => simp [onClose, save_session, hM]
    | cons m ms => simp [onClose, save_session, hM]

/-- A concrete state whose next chat turn will fail. -/
def stC : ReplState := ⟨agentW, "sid-0", histW⟩

/-- A chat-turn event whose completion call fails with a 500 after
exhausting its retries. -/
def evFail : RunEvent := .line "and then?" (.error (.httpStatus 500))

/-- Claim C2 counterexample: after a chat turn whose completion call fails,
the loop iteration does not end back at the Reading prompt; the session
terminates, the error propagates to start_repl and the process exits with
code 1 without touching the remaining input. -/
theorem chat_error_not_reading_cex :
    (replIterate [] true "sid-1" stC evFail).isReading = false
    ∧ (start_repl [] true (fun _ => "sid-1") stC
        [evFail, .line "next" (.ok "ignored")]).exitCode = 1 :=
  ⟨rfl, rfl⟩

/-- Claim C2 amended: a completion-client error that exhausts its retries
during a chat turn is caught by none of the loop's except clauses, so the
session terminates instead of returning to Reading: the error propagates
out of run, start_repl reports it and exits with code 1, later input is
never processed, and the transcript accumulated before the turn is
preserved unchanged as a prefix, extended only by the failed turn's user
message (run's finally block still performs the auto-save on this
transcript). -/
theorem chat_error_propagates (agents : List Agent) (autoSave : Bool)
    (fresh : Nat → String) (st : ReplState) (input : String)
    (e : CompleteError) (evs : List RunEvent)
    (hne : pyStrip input ≠ "")
    (hns : pyStartsWith (pyStrip input) "/" = false) :
    (run agents autoSave fresh 0 st
        (.line input (.error e) :: evs)).propagated = some e
    ∧ (run agents autoSave fresh 0 st
        (.line input (.error e) :: evs)).final.messages =
      st.messages ++ [Message.mk "user" (pyStrip input) none]
    ∧ (start_repl agents autoSave fresh st
        (.line input (.error e) :: evs)).exitCode = 1
    ∧ (start_repl agents autoSave fresh st
        (.line input (.error e) :: evs)).reportedError = some e := by
  have hstep : replIterate agents autoSave (fresh 0) st (.line input (.error e)) =
      .errorExit
        { st with messages := st.messages ++ [Message.mk "user" (pyStrip input) none] }
        e := by
    simp [replIterate, hne, hns]
  have hloop : runLoop agents autoSave fresh 0 st (.line input (.error e) :: evs) =
      ({ st with messages := st.messages ++ [Message.mk "user" (pyStrip input) none] },
        some e) := by
    simp [runLoop, hstep]
  refine ⟨?_, ?_, ?_, ?_⟩
  · simp [run, hloop]
  · simp [run, hloop]
  · simp [start_repl, run, hloop]
  · simp [start_repl, run, hloop]

theorem chat_error_propagates_witness :
    (run [] true (fun _ => "sid-1") 0 stC [evFail]).propagated =
      some (.httpStatus 500)
    ∧ (run [] true (fun _ => "sid-1") 0 stC [evFail]).final.messages =
      stC.messages ++ [Message.mk "user" "and then?" none]
    ∧ (start_repl [] true (fun _ => "sid-1") stC [evFail]).exitCode = 1
    ∧ (start_repl [] true (fun _ => "sid-1") stC [evFail]).reportedError =
      some (.httpStatus 500) := by
  have h := chat_error_propagates [] true (fun _ => "sid-1") stC "and then?"
    (.httpStatus 500) [] (by decide) (by decide)
  exact ⟨h.1, h.2.1, h.2.2.1, h.2.2.2⟩
